import Mathlib

/-!
Formal model of the resilient multi-key LLM call gateway and the
dependency-ordered task graph of this repository.  The Python sources
(src/core/api_pool.py, src/keys.py, src/tasks/task.py,
src/core/orchestrator.py) are embedded shallowly: dataclasses become
structures, methods become pure functions, in-place mutation becomes
explicit state passing, and wall-clock time and network replies become
explicit parameters.
-/

namespace Gateway

/-- Model of Python str.strip() on a character list: drop leading and
trailing characters satisfying p. -/
def stripList (p : Char → Bool) (l : List Char) : List Char :=
  (l.dropWhile p).rdropWhile p

/-- Model of Python str.strip() with no arguments: strip surrounding
whitespace. -/
def pyStrip (s : String) : String :=
  String.mk (stripList Char.isWhitespace s.data)

/-- Accumulating splitter behind pySplit: collect maximal whitespace-free
runs, oldest-first, dropping empty fields. -/
def splitWsAux : List Char → List Char → List (List Char)
  | [], acc => if acc = [] then [] else [acc.reverse]
  | c :: rest, acc =>
    if c.isWhitespace then
      if acc = [] then splitWsAux rest [] else acc.reverse :: splitWsAux rest []
    else splitWsAux rest (c :: acc)

/-- Model of Python str.split() with no separator: split on whitespace
runs, discarding empty fields. -/
def pySplit (s : String) : List String :=
  (splitWsAux s.data []).map String.mk

/-- Accumulating splitter behind pySplitlines. -/
def splitNlAux : List Char → List Char → List String
  | [], acc => [String.mk acc.reverse]
  | c :: rest, acc =>
    if c = '\n' then String.mk acc.reverse :: splitNlAux rest []
    else splitNlAux rest (c :: acc)

/-- Model of Python str.splitlines() for newline-separated text (a trailing
newline yields one extra empty line here, which every consumer below
ignores as a blank line). -/
def pySplitlines (s : String) : List String :=
  splitNlAux s.data []

/-- Model of Python str.startswith(pre). -/
def pyStartsWith (s pre : String) : Bool :=
  decide (pre.data <+: s.data)

/-- Model of Python str.lower() for the ASCII model names at hand. -/
def pyLower (s : String) : String :=
  String.mk (s.data.map Char.toLower)

/-- Model of the Python substring test (x in s). -/
def strContains (s pat : String) : Bool :=
  decide (pat.data <:+: s.data)

/-- APIKeyInfo from src/core/api_pool.py: one credential record.
last_used holds the wall-clock stamp written by mark_used. -/
structure APIKeyInfo where
  key : String
  provider : String
  calls_count : Nat := 0
  last_used : ℚ := 0
  errors : Nat := 0
  is_active : Bool := true
deriving DecidableEq

/-- APIKeyInfo.mark_used: increment the call counter and stamp the current
time (time.time() is passed in explicitly as now). -/
def APIKeyInfo.mark_used (k : APIKeyInfo) (now : ℚ) : APIKeyInfo :=
  { k with calls_count := k.calls_count + 1, last_used := now }

/-- APIKeyInfo.mark_error: increment the error counter and disable the key
once the counter reaches 3. -/
def APIKeyInfo.mark_error (k : APIKeyInfo) : APIKeyInfo :=
  let e := k.errors + 1
  { k with errors := e, is_active := if 3 ≤ e then false else k.is_active }

/-- One mutation event on a credential record: a successful use (mark_used
at some instant) or an error (mark_error). These are the only two
operations in the repository that mutate an APIKeyInfo. -/
inductive KeyOp where
  | used (now : ℚ)
  | err
deriving DecidableEq

/-- Apply one mutation event to a record. -/
def KeyOp.apply (k : APIKeyInfo) : KeyOp → APIKeyInfo
  | .used now => k.mark_used now
  | .err => k.mark_error

/-- Apply a sequence of mutation events, oldest first. -/
def applyOps (k : APIKeyInfo) (ops : List KeyOp) : APIKeyInfo :=
  ops.foldl KeyOp.apply k

/-- Number of mark_error events in a sequence. -/
def countErr (ops : List KeyOp) : Nat :=
  ops.count KeyOp.err

/-- APIKeyPool from src/core/api_pool.py. -/
structure APIKeyPool where
  keys : List APIKeyInfo := []
  round_robin_index : Nat := 0
deriving DecidableEq

/-- The active records of a pool, in stored order. -/
def APIKeyPool.activeKeys (p : APIKeyPool) : List APIKeyInfo :=
  p.keys.filter (fun k => k.is_active)

/-- APIKeyPool.add_key: append a fresh record unless the key is falsy,
whitespace-only, or starts with a comment marker. -/
def APIKeyPool.add_key (p : APIKeyPool) (key : String) (provider : String) : APIKeyPool :=
  if key ≠ "" ∧ pyStrip key ≠ "" ∧ pyStartsWith key "#" = false then
    { p with keys := p.keys ++ [{ key := pyStrip key, provider := provider }] }
  else p

/-- APIKeyPool.get_keys_for_parallel: cycle through the active records to
produce exactly count records; empty when no record is active. -/
def APIKeyPool.get_keys_for_parallel (p : APIKeyPool) (count : Nat) : List APIKeyInfo :=
  let active := p.activeKeys
  if h : active = [] then []
  else
    (List.range count).map
      (fun i => active.get ⟨i % active.length, Nat.mod_lt i (List.length_pos.mpr h)⟩)

/-- Token usage block of a successful call result. -/
structure Usage where
  prompt_tokens : Nat := 0
  completion_tokens : Nat := 0
  total_tokens : Nat := 0
deriving DecidableEq

/-- Success-shaped call result dict returned by _single_call. -/
structure CallSuccess where
  content : String
  model : String
  usage : Usage
  finish_reason : String
deriving DecidableEq

/-- Outcome of one attempt as _single_call returns it: either a
success-shaped dict, or an error-shaped dict carrying a message
(_single_call catches every exception and never raises). -/
inductive CallOutcome where
  | success (r : CallSuccess)
  | failure (msg : String)
deriving DecidableEq

/-- Project a success out of an attempt outcome, mirroring the filter
(isinstance dict and no error key) in call_parallel. -/
def CallOutcome.getSuccess : CallOutcome → Option CallSuccess
  | .success r => some r
  | .failure _ => none

/-- ParallelLLMManager.call_parallel, with the network abstracted: attempt i
is the outcome of the _single_call issued for the i-th drawn credential.
Raised RuntimeErrors become Except.error. -/
def call_parallel (pool : APIKeyPool) (provider : String) (n_parallel : Nat)
    (attempt : Nat → CallOutcome) : Except String (List CallSuccess) :=
  let keys := pool.get_keys_for_parallel n_parallel
  if keys.isEmpty then
    Except.error ("No active " ++ provider ++ " API keys available")
  else
    let results := (List.range (keys.take n_parallel).length).map attempt
    let successful := results.filterMap CallOutcome.getSuccess
    if successful.isEmpty then Except.error "All parallel API calls failed"
    else Except.ok successful

/-- Model of float(self.request_timeout_seconds or 60.0): a zero setting
falls back to 60 seconds. -/
def pyBaseTimeout (request_timeout_seconds : ℚ) : ℚ :=
  if request_timeout_seconds = 0 then 60 else request_timeout_seconds

/-- ParallelLLMManager._compute_timeout: scale the base timeout by
clamp(max_tokens / 2000, 1, 5); absent or non-positive budgets keep the
base timeout. -/
def compute_timeout (request_timeout_seconds : ℚ) (max_tokens : Option ℤ) : ℚ :=
  let base_timeout := pyBaseTimeout request_timeout_seconds
  match max_tokens with
  | none => base_timeout
  | some t =>
    if t ≤ 0 then base_timeout
    else base_timeout * max 1 (min ((t : ℚ) / 2000) 5)

/-- One typed content fragment of a Responses API output block. -/
structure RContent where
  type : String
  text : String
deriving DecidableEq

/-- One typed output block of a Responses API response. -/
structure ROutputItem where
  type : String
  content : List RContent
deriving DecidableEq

/-- Responses API response object as _single_call reads it: the output
block list (empty models a missing or falsy output attribute), the
resolved model name and the usage block (getattr defaults are inlined). -/
structure RResponse where
  output : List ROutputItem
  model : String
  usage : Usage
deriving DecidableEq

/-- The output_text accumulation loop of _single_call: concatenate the text
of every output_text-typed fragment under every message-typed block. -/
def extractOutputText (r : RResponse) : String :=
  r.output.foldl
    (fun acc item =>
      if item.type == "message" then
        item.content.foldl
          (fun acc2 c => if c.type == "output_text" then acc2 ++ c.text else acc2)
          acc
      else acc)
    ""

/-- Model of the Python str(response) fallback on the flattened path: the
textual rendering of the raw SDK response object, which always starts with
the class name and is therefore never empty. -/
def strResponse (r : RResponse) : String :=
  String.mk ('R' :: ("esponse(model=" ++ r.model ++ ")").data)

/-- The success-shaped dict built by _single_call on the Responses API
(flattened protocol) path. -/
def parseResponsesResult (r : RResponse) : CallSuccess :=
  let output_text := extractOutputText r
  { content := if output_text ≠ "" then pyStrip output_text else strResponse r
    model := r.model
    usage := r.usage
    finish_reason := "stop" }

/-- One choice of a Chat Completions response: the message content (None
modelled as none) and the finish reason reported on the wire. -/
structure ChatChoice where
  message_content : Option String
  finish_reason : String
deriving DecidableEq

/-- Chat Completions response as _single_call reads it (a falsy usage
attribute is modelled as none, matching the explicit if-else defaults). -/
structure ChatResponse where
  choice0 : ChatChoice
  model : String
  usage : Option Usage
deriving DecidableEq

/-- The empty-content normalization of _single_call on the chat path:
a None or whitespace-only message body becomes the empty string, any other
body is kept verbatim. -/
def normalizeChatContent : Option String → String
  | none => ""
  | some s => if pyStrip s = "" then "" else s

/-- The success-shaped dict built by _single_call on the Chat Completions
(turn protocol) path. -/
def parseChatResult (resp : ChatResponse) : CallSuccess :=
  { content := normalizeChatContent resp.choice0.message_content
    model := resp.model
    usage := resp.usage.getD {}
    finish_reason := resp.choice0.finish_reason }

/-- RESPONSES_API_MODELS from src/core/api_pool.py. -/
def RESPONSES_API_MODELS : List String :=
  ["gpt-5.1-codex", "gpt-5.1-codex-mini", "gpt-5.1-codex-max"]

/-- The use_responses_api test of _single_call: the lowered model name
contains one of the Responses API model names. -/
def useResponsesApi (model : String) : Bool :=
  RESPONSES_API_MODELS.any (fun x => strContains (pyLower model) x)

/-- The is_reasoning_model test of _single_call: the lowered model name
contains gpt-5, o1 or o3. -/
def isReasoningModel (model : String) : Bool :=
  ["gpt-5", "o1", "o3"].any (fun x => strContains (pyLower model) x)

/-- The request fields _single_call sends on the wire; absent fields are
none. max_output_tokens is the budget field of the Responses API call. -/
structure ApiParams where
  model : String
  max_tokens : Option Nat := none
  max_completion_tokens : Option Nat := none
  temperature : Option ℚ := none
  reasoning_effort : Option String := none
  max_output_tokens : Option Nat := none
deriving DecidableEq

/-- The request-parameter construction of _single_call: Responses API
models get max_output_tokens only; reasoning chat models get
max_completion_tokens and reasoning_effort; all other chat models get
max_tokens and the optional temperature. -/
def buildRequestParams (model : String) (temperature : Option ℚ) (max_tokens : Nat)
    (reasoning_effort : String) : ApiParams :=
  if useResponsesApi model then
    { model := model, max_output_tokens := some max_tokens }
  else if isReasoningModel model then
    { model := model, max_completion_tokens := some max_tokens,
      reasoning_effort := some reasoning_effort }
  else
    { model := model, max_tokens := some max_tokens, temperature := temperature }

/-- TaskStatus from src/tasks/task.py. -/
inductive TStatus where
  | pending
  | running
  | done
  | failed
deriving DecidableEq

/-- Task from src/tasks/task.py: one task node payload. -/
structure TaskNode where
  task_id : String
  summary : String := ""
  assignee : String := ""
  status : TStatus := .pending
  outputs : List (String × String) := []
deriving DecidableEq

/-- TaskGraph from src/tasks/task.py: the node payloads in insertion order
plus the directed dependency → dependent edge list. -/
structure TaskGraph where
  nodes : List TaskNode := []
  edges : List (String × String) := []
deriving DecidableEq

/-- Payload lookup by node identifier (nx node attribute access). -/
def TaskGraph.findNode (g : TaskGraph) (id : String) : Option TaskNode :=
  g.nodes.find? (fun n => n.task_id == id)

/-- TaskGraph.get_ready_tasks: the PENDING nodes whose every predecessor
payload is DONE, in stored node order. -/
def TaskGraph.get_ready_tasks (g : TaskGraph) : List TaskNode :=
  g.nodes.filter
    (fun t =>
      t.status == TStatus.pending &&
      (g.edges.filter (fun e => e.2 == t.task_id)).all
        (fun e => (g.findNode e.1).map (fun n => n.status) == some TStatus.done))

/-- APIKeyRecord from src/keys.py. -/
structure APIKeyRecord where
  label : String
  key : String
deriving DecidableEq

/-- The per-line body of APIKeyManager._load: skip blank and comment lines,
take the last whitespace-separated field as the key, drop it unless it
starts with sk-, and label it with the first field or key-idx. -/
def loadLine (idx : Nat) (line : String) : Option APIKeyRecord :=
  let stripped := pyStrip line
  if stripped = "" ∨ pyStartsWith stripped "#" then none
  else
    let parts := pySplit stripped
    match parts.getLast? with
    | none => none
    | some key =>
      if pyStartsWith key "sk-" = false then none
      else some { label := if 1 < parts.length then parts.headD "" else "key-" ++ toString idx
                  key := key }

/-- APIKeyManager._load: parse the whole manifest, enumerating lines
from 1. -/
def APIKeyManager_load (content : String) : List APIKeyRecord :=
  (pySplitlines content).enum.filterMap (fun p => loadLine (p.1 + 1) p.2)

/-- The per-line body of ParallelLLMManager._load_keys_from_file: strip the
line, skip it when blank or a comment, otherwise hand the whole stripped
line to APIKeyPool.add_key. -/
def processKeyLine (provider : String) (p : APIKeyPool) (line : String) : APIKeyPool :=
  let l := pyStrip line
  if l ≠ "" ∧ pyStartsWith l "#" = false then p.add_key l provider else p

/-- ParallelLLMManager._load_keys_from_file over in-memory file content. -/
def load_keys_from_file (content : String) (pool : APIKeyPool) (provider : String) : APIKeyPool :=
  (pySplitlines content).foldl (processKeyLine provider) pool

/-- Task record of src/core/orchestrator.py as far as graph construction is
concerned: an identifier and its declared dependencies. -/
structure OTask where
  task_id : String
  dependencies : List String
deriving DecidableEq

/-- The node identifiers of a task collection, in insertion order. -/
def taskIds (tasks : List OTask) : List String :=
  tasks.map (fun t => t.task_id)

/-- Every dependency edge a plan declares, as dependency → dependent
pairs. -/
def declaredEdges (tasks : List OTask) : List (String × String) :=
  tasks.flatMap (fun t => t.dependencies.map (fun d => (d, t.task_id)))

/-- The edges Orchestrator._build_dependency_graph actually adds: declared
edges whose dependency is itself a known task. -/
def builtEdges (tasks : List OTask) : List (String × String) :=
  tasks.flatMap
    (fun t =>
      (t.dependencies.filter (fun d => (taskIds tasks).contains d)).map
        (fun d => (d, t.task_id)))

/-- A vertex still has an incoming edge from the remaining vertex set. -/
def hasIncomingFrom (edges : List (String × String)) (remaining : List String)
    (v : String) : Bool :=
  edges.any (fun e => e.2 == v && remaining.contains e.1)

/-- One round of Kahn-style peeling: keep exactly the vertices that still
have an incoming edge from the remaining set (the others have in-degree
zero and are removed). -/
def peel (edges : List (String × String)) (remaining : List String) : List String :=
  remaining.filter (hasIncomingFrom edges remaining)

/-- Modelled from the networkx semantics of nx.is_directed_acyclic_graph
(the library call used by Orchestrator._build_dependency_graph, not part of
this repository): a finite directed graph is acyclic iff repeatedly
deleting all in-degree-zero vertices empties it within |V| rounds. -/
def is_directed_acyclic_graph (nodes : List String) (edges : List (String × String)) : Bool :=
  ((peel edges)^[nodes.length] nodes).isEmpty

/-- Orchestrator._build_dependency_graph: add a node per task and an edge
per known dependency, then reject the graph with ValueError when it has a
cycle. -/
def build_dependency_graph (tasks : List OTask) :
    Except String (List String × List (String × String)) :=
  let nodes := taskIds tasks
  let edges := builtEdges tasks
  if is_directed_acyclic_graph nodes edges then Except.ok (nodes, edges)
  else Except.error "Circular dependencies detected in task graph!"

/-- Outcome of Orchestrator.execute_project as far as the graph phases are
concerned: whether it succeeded, the error it reported, and which task
identifiers reached Phase 2 execution. -/
structure ProjectResult where
  success : Bool
  error : Option String
  tasks_executed : List String
deriving DecidableEq

/-- The graph-sensitive skeleton of Orchestrator.execute_project: Phase 1
builds the dependency graph; a ValueError raised there is caught by the
surrounding handler and returned as a failure dict before Phase 2 runs.
Phase 2 (agent execution over the built graph) is abstracted as runPhase2. -/
def execute_project (tasks : List OTask)
    (runPhase2 : List String × List (String × String) → ProjectResult) : ProjectResult :=
  match build_dependency_graph tasks with
  | Except.error e => { success := false, error := some e, tasks_executed := [] }
  | Except.ok g => runPhase2 g

end Gateway

namespace Gateway

theorem applyOps_nil (k : APIKeyInfo) : applyOps k [] = k := rfl

theorem applyOps_cons (k : APIKeyInfo) (o : KeyOp) (ops : List KeyOp) :
    applyOps k (o :: ops) = applyOps (o.apply k) ops := rfl

theorem mark_used_errors (k : APIKeyInfo) (now : ℚ) :
    (k.mark_used now).errors = k.errors := rfl

theorem mark_used_is_active (k : APIKeyInfo) (now : ℚ) :
    (k.mark_used now).is_active = k.is_active := rfl

theorem mark_error_inactive_of_inactive (k : APIKeyInfo) (h : k.is_active = false) :
    k.mark_error.is_active = false := by
  simp only [APIKeyInfo.mark_error, h]
  split <;> rfl

theorem apply_inactive_of_inactive (k : APIKeyInfo) (o : KeyOp) (h : k.is_active = false) :
    (o.apply k).is_active = false := by
  cases o with
  | used now => simpa [KeyOp.apply, mark_used_is_active] using h
  | err => exact mark_error_inactive_of_inactive k h

theorem applyOps_inactive_of_inactive (k : APIKeyInfo) (ops : List KeyOp)
    (h : k.is_active = false) : (applyOps k ops).is_active = false := by
  induction ops generalizing k with
  | nil => simpa [applyOps_nil] using h
  | cons o rest ih =>
    rw [applyOps_cons]
    exact ih _ (apply_inactive_of_inactive k o h)

theorem mark_error_errors (k : APIKeyInfo) : k.mark_error.errors = k.errors + 1 := rfl

theorem mark_error_inactive_of_three (k : APIKeyInfo) (h : 3 ≤ k.errors + 1) :
    k.mark_error.is_active = false := by
  simp only [APIKeyInfo.mark_error]
  rw [if_pos h]

theorem countErr_cons_used (now : ℚ) (ops : List KeyOp) :
    countErr (KeyOp.used now :: ops) = countErr ops := by
  simp [countErr, List.count_cons]

theorem countErr_cons_err (ops : List KeyOp) :
    countErr (KeyOp.err :: ops) = countErr ops + 1 := by
  simp [countErr, List.count_cons]

theorem applyOps_inactive_of_enough_errors (ops : List KeyOp) :
    ∀ k : APIKeyInfo, 3 ≤ k.errors + countErr ops → 1 ≤ countErr ops →
      (applyOps k ops).is_active = false := by
  induction ops with
  | nil =>
    intro k _ h1
    simp [countErr] at h1
  | cons o rest ih =>
    intro k htotal hone
    cases o with
    | used now =>
      rw [applyOps_cons]
      have hc : countErr (KeyOp.used now :: rest) = countErr rest := countErr_cons_used now rest
      refine ih (KeyOp.apply k (.used now)) ?_ ?_
      · simpa [KeyOp.apply, mark_used_errors, ← hc] using htotal
      · omega
    | err =>
      rw [applyOps_cons]
      have hc : countErr (KeyOp.err :: rest) = countErr rest + 1 := countErr_cons_err rest
      by_cases hz : countErr rest = 0
      · have h3 : 3 ≤ k.errors + 1 := by omega
        have : (KeyOp.apply k .err).is_active = false := mark_error_inactive_of_three k h3
        exact applyOps_inactive_of_inactive _ rest this
      · refine ih (KeyOp.apply k .err) ?_ ?_
        · have : (KeyOp.apply k .err).errors = k.errors + 1 := mark_error_errors k
          omega
        · omega

theorem stripList_idem (p : Char → Bool) (l : List Char) :
    stripList p (stripList p l) = stripList p l := by
  have hpre : (l.dropWhile p).rdropWhile p <+: l.dropWhile p := List.rdropWhile_prefix p _
  have hS : ((l.dropWhile p).rdropWhile p).dropWhile p = (l.dropWhile p).rdropWhile p := by
    rw [List.dropWhile_eq_self_iff]
    intro hl
    have h0 : 0 < (l.dropWhile p).length := lt_of_lt_of_le hl hpre.length_le
    have hget : ((l.dropWhile p).rdropWhile p).get ⟨0, hl⟩ = (l.dropWhile p).get ⟨0, h0⟩ := by
      simp only [List.get_eq_getElem]
      exact hpre.getElem hl
    rw [hget]
    exact List.dropWhile_eq_self_iff.mp (List.dropWhile_idempotent p l) h0
  show ((stripList p l).dropWhile p).rdropWhile p = stripList p l
  rw [show stripList p l = (l.dropWhile p).rdropWhile p from rfl, hS,
    List.rdropWhile_idempotent]

theorem pyStrip_idem (s : String) : pyStrip (pyStrip s) = pyStrip s := by
  show String.mk (stripList Char.isWhitespace (String.mk _).data) = _
  rw [show (String.mk (stripList Char.isWhitespace s.data)).data
        = stripList Char.isWhitespace s.data from rfl, stripList_idem]
  rfl

theorem strResponse_ne_empty (r : RResponse) : strResponse r ≠ "" := by
  intro h
  exact List.noConfusion (congrArg String.data h)

theorem activeKeys_active (p : APIKeyPool) (r : APIKeyInfo) (h : r ∈ p.activeKeys) :
    r.is_active = true := by
  have := List.mem_filter.mp h
  simpa using this.2

theorem get_keys_for_parallel_of_no_active (p : APIKeyPool) (n : Nat)
    (h : p.activeKeys = []) : p.get_keys_for_parallel n = [] := by
  simp [APIKeyPool.get_keys_for_parallel, h]

theorem get_keys_for_parallel_length (p : APIKeyPool) (n : Nat)
    (h : p.activeKeys ≠ []) : (p.get_keys_for_parallel n).length = n := by
  simp [APIKeyPool.get_keys_for_parallel, h]

theorem get_keys_for_parallel_getElem (p : APIKeyPool) (n : Nat)
    (h : p.activeKeys ≠ []) (i : Nat) (hi : i < n) :
    (p.get_keys_for_parallel n)[i]? = p.activeKeys[i % p.activeKeys.length]? := by
  simp only [APIKeyPool.get_keys_for_parallel, dif_neg h]
  rw [List.getElem?_map]
  rw [List.getElem?_range hi]
  rw [List.getElem?_eq_getElem (Nat.mod_lt i (List.length_pos.mpr h))]
  simp [List.get_eq_getElem]

theorem get_keys_for_parallel_mem_active (p : APIKeyPool) (n : Nat) (r : APIKeyInfo)
    (h : r ∈ p.get_keys_for_parallel n) : r ∈ p.activeKeys := by
  by_cases hact : p.activeKeys = []
  · rw [get_keys_for_parallel_of_no_active p n hact] at h
    simp at h
  · simp only [APIKeyPool.get_keys_for_parallel, dif_neg hact, List.mem_map,
      List.mem_range] at h
    obtain ⟨i, _, rfl⟩ := h
    exact List.get_mem _ _ _

/-- C2: get_keys_for_parallel returns the empty list when the pool has no
active records; otherwise it returns exactly n records, the i-th being
active i mod len active in stored order, so every returned record is
active and the records cycle when n exceeds the active count. -/
theorem c2_get_keys_for_parallel_spec (p : APIKeyPool) (n : Nat) :
    (p.activeKeys = [] → p.get_keys_for_parallel n = []) ∧
    (p.activeKeys ≠ [] →
      (p.get_keys_for_parallel n).length = n ∧
      (∀ i, i < n →
        (p.get_keys_for_parallel n)[i]? = p.activeKeys[i % p.activeKeys.length]?) ∧
      (∀ r ∈ p.get_keys_for_parallel n, r.is_active = true)) := by
  refine ⟨get_keys_for_parallel_of_no_active p n, fun h => ⟨?_, ?_, ?_⟩⟩
  · exact get_keys_for_parallel_length p n h
  · exact fun i hi => get_keys_for_parallel_getElem p n h i hi
  · exact fun r hr => activeKeys_active p r (get_keys_for_parallel_mem_active p n r hr)

/-- Witness for C2 on the two-record pool of the spec scenario: fan-out 4
over two active records cycles r1, r2, r1, r2. -/
theorem c2_witness :
    (({ keys := [{ key := "k1", provider := "openai" },
                 { key := "k2", provider := "openai" }] } :
        APIKeyPool).get_keys_for_parallel 4).length = 4 ∧
    (({ keys := [{ key := "k1", provider := "openai" },
                 { key := "k2", provider := "openai" }] } :
        APIKeyPool).get_keys_for_parallel 4)[2]? =
      ({ keys := [{ key := "k1", provider := "openai" },
                  { key := "k2", provider := "openai" }] } :
        APIKeyPool).activeKeys[0]? := by
  have h := c2_get_keys_for_parallel_spec
    { keys := [{ key := "k1", provider := "openai" },
               { key := "k2", provider := "openai" }] } 4
  have h2 := h.2 (by decide)
  exact ⟨h2.1, by rw [h2.2.1 2 (by decide)]; decide⟩

theorem mark_error_active_of_below (k : APIKeyInfo) (hk : k.is_active = true)
    (h : k.errors + 1 < 3) : k.mark_error.is_active = true := by
  simp only [APIKeyInfo.mark_error]
  rw [if_neg (by omega)]
  exact hk

theorem applyOps_active_of_few_errors (ops : List KeyOp) :
    ∀ k : APIKeyInfo, k.is_active = true → k.errors + countErr ops < 3 →
      (applyOps k ops).is_active = true := by
  induction ops with
  | nil =>
    intro k hk _
    simpa [applyOps_nil] using hk
  | cons o rest ih =>
    intro k hk hlt
    cases o with
    | used now =>
      rw [applyOps_cons]
      have hc := countErr_cons_used now rest
      refine ih _ ?_ ?_
      · rw [show KeyOp.apply k (.used now) = k.mark_used now from rfl,
          mark_used_is_active]
        exact hk
      · rw [show KeyOp.apply k (.used now) = k.mark_used now from rfl,
          mark_used_errors]
        omega
    | err =>
      rw [applyOps_cons]
      have hc := countErr_cons_err rest
      have herr : (KeyOp.apply k .err).errors = k.errors + 1 := mark_error_errors k
      refine ih _ ?_ ?_
      · exact mark_error_active_of_below k hk (by omega)
      · omega

/-- C3: a fresh credential record is disabled once mark_error has run three
times in any interleaving with mark_used; mark_used never changes the error
counter; no operation ever turns an inactive record active again; and the
true-to-false transition happens only via the eviction rule: mark_used
never changes the active flag, a mark_error that leaves the counter below 3
keeps the record active, and an active record stays active under any
operation sequence whose cumulative error count stays below 3. -/
theorem c3_eviction_spec :
    (∀ key provider : String, ∀ ops : List KeyOp, 3 ≤ countErr ops →
      (applyOps { key := key, provider := provider } ops).is_active = false) ∧
    (∀ k : APIKeyInfo, ∀ now : ℚ, (k.mark_used now).errors = k.errors) ∧
    (∀ k : APIKeyInfo, ∀ ops : List KeyOp, k.is_active = false →
      (applyOps k ops).is_active = false) ∧
    (∀ k : APIKeyInfo, ∀ now : ℚ, (k.mark_used now).is_active = k.is_active) ∧
    (∀ k : APIKeyInfo, k.is_active = true → k.errors + 1 < 3 →
      k.mark_error.is_active = true) ∧
    (∀ k : APIKeyInfo, ∀ ops : List KeyOp, k.is_active = true →
      k.errors + countErr ops < 3 → (applyOps k ops).is_active = true) := by
  refine ⟨fun key provider ops h => ?_, mark_used_errors, applyOps_inactive_of_inactive,
    mark_used_is_active, mark_error_active_of_below,
    fun k ops hk hlt => applyOps_active_of_few_errors ops k hk hlt⟩
  exact applyOps_inactive_of_enough_errors ops _ (by simpa using h) (by omega)

/-- Witness for C3: the third mark_error disables the record even though a
successful mark_used happened in between; the record stays inactive
afterwards; and below the threshold the record stays active, both under a
mark_used, under a single sub-threshold mark_error, and under a mixed
sequence with only two errors. -/
theorem c3_witness :
    (applyOps { key := "sk-w", provider := "openai" }
        [KeyOp.err, KeyOp.used 5, KeyOp.err, KeyOp.err]).is_active = false ∧
    (({ key := "sk-w", provider := "openai", is_active := false } :
        APIKeyInfo).mark_used 9).errors =
      ({ key := "sk-w", provider := "openai", is_active := false } :
        APIKeyInfo).errors ∧
    (applyOps { key := "sk-w", provider := "openai", is_active := false }
        [KeyOp.used 7]).is_active = false ∧
    (({ key := "sk-w", provider := "openai" } : APIKeyInfo).mark_used 9).is_active =
      ({ key := "sk-w", provider := "openai" } : APIKeyInfo).is_active ∧
    ({ key := "sk-w", provider := "openai" } : APIKeyInfo).mark_error.is_active =
      true ∧
    (applyOps { key := "sk-w", provider := "openai" }
        [KeyOp.err, KeyOp.used 5, KeyOp.err]).is_active = true :=
  ⟨c3_eviction_spec.1 "sk-w" "openai" [KeyOp.err, KeyOp.used 5, KeyOp.err, KeyOp.err]
      (by decide),
   c3_eviction_spec.2.1 _ 9,
   c3_eviction_spec.2.2.1 _ [KeyOp.used 7] rfl,
   c3_eviction_spec.2.2.2.1 _ 9,
   c3_eviction_spec.2.2.2.2.1 { key := "sk-w", provider := "openai" } rfl (by decide),
   c3_eviction_spec.2.2.2.2.2 { key := "sk-w", provider := "openai" }
     [KeyOp.err, KeyOp.used 5, KeyOp.err] rfl (by decide)⟩

theorem pyBaseTimeout_nonneg (rts : ℚ) (h : 0 ≤ rts) : 0 ≤ pyBaseTimeout rts := by
  rw [pyBaseTimeout]
  split <;> [norm_num; exact h]

/-- C5: the computed timeout is base_timeout times clamp(max_tokens/2000,
1, 5), equals the base timeout for an absent or non-positive budget, is
monotonically non-decreasing in the budget, and never exceeds five times
the base timeout. -/
theorem c5_compute_timeout_spec (rts : ℚ) (mt : Option ℤ) :
    compute_timeout rts none = pyBaseTimeout rts ∧
    (∀ t : ℤ, t ≤ 0 → compute_timeout rts (some t) = pyBaseTimeout rts) ∧
    (∀ t : ℤ, 0 < t →
      compute_timeout rts (some t) =
        pyBaseTimeout rts * max 1 (min ((t : ℚ) / 2000) 5)) ∧
    (0 ≤ rts → ∀ t1 t2 : ℤ, t1 ≤ t2 →
      compute_timeout rts (some t1) ≤ compute_timeout rts (some t2)) ∧
    (0 ≤ rts → compute_timeout rts mt ≤ 5 * pyBaseTimeout rts) := by
  have hmul : ∀ t : ℤ, 0 < t →
      compute_timeout rts (some t) =
        pyBaseTimeout rts * max 1 (min ((t : ℚ) / 2000) 5) := by
    intro t ht
    simp [compute_timeout, not_le.mpr ht]
  have hbase5 : 0 ≤ rts → pyBaseTimeout rts ≤ 5 * pyBaseTimeout rts := by
    intro h
    have := pyBaseTimeout_nonneg rts h
    linarith
  refine ⟨rfl, fun t ht => by simp [compute_timeout, ht], hmul, ?_, ?_⟩
  · intro h t1 t2 hle
    have hb := pyBaseTimeout_nonneg rts h
    rcases le_or_lt t1 0 with h1 | h1
    · rw [show compute_timeout rts (some t1) = pyBaseTimeout rts by
        simp [compute_timeout, h1]]
      rcases le_or_lt t2 0 with h2 | h2
      · rw [show compute_timeout rts (some t2) = pyBaseTimeout rts by
          simp [compute_timeout, h2]]
      · rw [hmul t2 h2]
        exact le_mul_of_one_le_right hb (le_max_left _ _)
    · have h2 : (0 : ℤ) < t2 := lt_of_lt_of_le h1 hle
      rw [hmul t1 h1, hmul t2 h2]
      apply mul_le_mul_of_nonneg_left _ hb
      have hc : (t1 : ℚ) ≤ (t2 : ℚ) := by exact_mod_cast hle
      exact max_le_max le_rfl
        (min_le_min ((div_le_div_iff_of_pos_right (by norm_num)).mpr hc) le_rfl)
  · intro h
    have hb := pyBaseTimeout_nonneg rts h
    match mt with
    | none => exact hbase5 h
    | some t =>
      rcases le_or_lt t 0 with h1 | h1
      · rw [show compute_timeout rts (some t) = pyBaseTimeout rts by
          simp [compute_timeout, h1]]
        exact hbase5 h
      · rw [hmul t h1, mul_comm (5 : ℚ) (pyBaseTimeout rts)]
        exact mul_le_mul_of_nonneg_left (max_le (by norm_num) (min_le_right _ _)) hb

/-- Witness for C5 at the spec scenario: budget 20000 with base 60 gives
multiplier 5 and timeout 300, dominating the budget-1000 timeout and
bounded by five times the base. -/
theorem c5_witness :
    compute_timeout 60 (some 20000) =
      pyBaseTimeout 60 * max 1 (min ((20000 : ℚ) / 2000) 5) ∧
    compute_timeout 60 (some 1000) ≤ compute_timeout 60 (some 20000) ∧
    compute_timeout 60 (some 20000) ≤ 5 * pyBaseTimeout 60 :=
  ⟨(c5_compute_timeout_spec 60 (some 20000)).2.2.1 20000 (by norm_num),
   (c5_compute_timeout_spec 60 (some 20000)).2.2.2.1 (by norm_num) 1000 20000
     (by norm_num),
   (c5_compute_timeout_spec 60 (some 20000)).2.2.2.2 (by norm_num)⟩

/-- C1: call_parallel fails with the no-active-keys error (for every
possible attempt behaviour, hence before any network attempt) when the
pool has no active credential; with at least one success it returns
exactly the successes in per-credential issue order; with zero successes
it fails with the all-calls-failed error; and every error it can raise is
one of those two. -/
theorem c1_call_parallel_spec (pool : APIKeyPool) (provider : String) (n : Nat)
    (attempt : Nat → CallOutcome) :
    (pool.activeKeys = [] →
      call_parallel pool provider n attempt =
        Except.error ("No active " ++ provider ++ " API keys available")) ∧
    (pool.activeKeys ≠ [] → 0 < n →
      (((List.range n).map attempt).filterMap CallOutcome.getSuccess ≠ [] →
        call_parallel pool provider n attempt =
          Except.ok (((List.range n).map attempt).filterMap CallOutcome.getSuccess)) ∧
      (((List.range n).map attempt).filterMap CallOutcome.getSuccess = [] →
        call_parallel pool provider n attempt =
          Except.error "All parallel API calls failed")) ∧
    (∀ e, call_parallel pool provider n attempt = Except.error e →
      e = "No active " ++ provider ++ " API keys available" ∨
      e = "All parallel API calls failed") := by
  refine ⟨fun h => ?_, fun hact hn => ?_, fun e he => ?_⟩
  · simp [call_parallel, get_keys_for_parallel_of_no_active pool n h]
  · have hlen : (pool.get_keys_for_parallel n).length = n :=
      get_keys_for_parallel_length pool n hact
    have hne : pool.get_keys_for_parallel n ≠ [] := by
      intro hnil
      rw [hnil] at hlen
      simp at hlen
      omega
    have htake : (pool.get_keys_for_parallel n).take n = pool.get_keys_for_parallel n :=
      List.take_of_length_le (le_of_eq hlen)
    have hb : (pool.get_keys_for_parallel n).isEmpty = false := by
      cases hx : pool.get_keys_for_parallel n with
      | nil => exact absurd hx hne
      | cons a t => rfl
    have hcp : call_parallel pool provider n attempt =
        (if (((List.range n).map attempt).filterMap CallOutcome.getSuccess).isEmpty
         then Except.error "All parallel API calls failed"
         else Except.ok (((List.range n).map attempt).filterMap CallOutcome.getSuccess)) := by
      simp only [call_parallel, htake, hlen, hb, Bool.false_eq_true, if_false]
    constructor
    · intro hs
      have hsb :
          ((((List.range n).map attempt).filterMap CallOutcome.getSuccess).isEmpty) =
            false := by
        cases hx : ((List.range n).map attempt).filterMap CallOutcome.getSuccess with
        | nil => exact absurd hx hs
        | cons a t => rfl
      rw [hcp, hsb]
      rfl
    · intro hs
      rw [hcp, hs]
      rfl
  · simp only [call_parallel] at he
    by_cases h1 : (pool.get_keys_for_parallel n).isEmpty
    · rw [if_pos h1] at he
      injection he with h2
      exact Or.inl h2.symm
    · rw [if_neg h1] at he
      by_cases h2 :
          (((List.range ((pool.get_keys_for_parallel n).take n).length).map
            attempt).filterMap CallOutcome.getSuccess).isEmpty
      · rw [if_pos h2] at he
        injection he with h3
        exact Or.inr h3.symm
      · rw [if_neg h2] at he
        exact Except.noConfusion he

/-- Witness for C1: with one active credential, fan-out 2, attempt 0 timing
out and attempt 1 succeeding, exactly the one success is returned; with an
empty pool the no-active-keys error is raised. -/
theorem c1_witness :
    call_parallel { keys := [{ key := "sk-w1", provider := "openai" }] } "openai" 2
        (fun i => if i = 0 then CallOutcome.failure "timeout after 60s"
                  else CallOutcome.success
                    { content := "ok", model := "gpt-4o-mini", usage := {},
                      finish_reason := "stop" }) =
      Except.ok [{ content := "ok", model := "gpt-4o-mini", usage := {},
                   finish_reason := "stop" }] ∧
    call_parallel ({} : APIKeyPool) "openai" 3 (fun _ => CallOutcome.failure "x") =
      Except.error "No active openai API keys available" := by
  constructor
  · have h := ((c1_call_parallel_spec
      { keys := [{ key := "sk-w1", provider := "openai" }] } "openai" 2
      (fun i => if i = 0 then CallOutcome.failure "timeout after 60s"
                else CallOutcome.success
                  { content := "ok", model := "gpt-4o-mini", usage := {},
                    finish_reason := "stop" })).2.1 (by decide) (by decide)).1 (by decide)
    rw [h]
    rfl
  · exact (c1_call_parallel_spec ({} : APIKeyPool) "openai" 3
      (fun _ => CallOutcome.failure "x")).1 rfl

/-- C4 counterexample: on the flattened protocol a response whose only
message block has no output_text fragment yields the nonempty string
rendering of the raw response, not the empty string the claim requires. -/
theorem c4_counterexample :
    (parseResponsesResult
        { output := [{ type := "message",
                       content := [{ type := "reasoning", text := "thinking" }] }],
          model := "gpt-5.1-codex", usage := {} }).content =
      "Response(model=gpt-5.1-codex)" ∧
    (parseResponsesResult
        { output := [{ type := "message",
                       content := [{ type := "reasoning", text := "thinking" }] }],
          model := "gpt-5.1-codex", usage := {} }).content ≠ "" := by
  decide

/-- C4 amended: on the turn protocol a null or whitespace-only message body
yields a success-shaped result with exactly the empty string; on the
flattened protocol, when no output_text is extracted the result is still
success-shaped but its text is the nonempty string rendering of the raw
response rather than the empty string. -/
theorem c4_empty_content_normalization (resp : ChatResponse) (r : RResponse) :
    (resp.choice0.message_content = none → (parseChatResult resp).content = "") ∧
    (∀ s, resp.choice0.message_content = some s → pyStrip s = "" →
      (parseChatResult resp).content = "") ∧
    (extractOutputText r = "" →
      (parseResponsesResult r).content = strResponse r ∧ strResponse r ≠ "") := by
  refine ⟨fun h => ?_, fun s hs hstrip => ?_, fun h => ⟨?_, strResponse_ne_empty r⟩⟩
  · simp [parseChatResult, normalizeChatContent, h]
  · simp [parseChatResult, normalizeChatContent, hs, hstrip]
  · simp [parseResponsesResult, h]

/-- Witness for C4 amended: a None body and a whitespace-only body both
normalize to the empty string; a fragment-free flattened response gets the
nonempty raw rendering. -/
theorem c4_witness :
    (parseChatResult { choice0 := { message_content := none, finish_reason := "stop" },
                       model := "m", usage := none }).content = "" ∧
    (parseChatResult { choice0 := { message_content := some "   ",
                                    finish_reason := "stop" },
                       model := "m", usage := none }).content = "" ∧
    (parseResponsesResult { output := [], model := "m", usage := {} }).content =
      strResponse { output := [], model := "m", usage := {} } := by
  refine ⟨?_, ?_, ?_⟩
  · exact (c4_empty_content_normalization
      { choice0 := { message_content := none, finish_reason := "stop" },
        model := "m", usage := none }
      { output := [], model := "m", usage := {} }).1 rfl
  · exact (c4_empty_content_normalization
      { choice0 := { message_content := some "   ", finish_reason := "stop" },
        model := "m", usage := none }
      { output := [], model := "m", usage := {} }).2.1 "   " rfl (by decide)
  · exact ((c4_empty_content_normalization
      { choice0 := { message_content := none, finish_reason := "stop" },
        model := "m", usage := none }
      { output := [], model := "m", usage := {} }).2.2 (by decide)).1

/-- C8 counterexample: gpt-5.1-codex matches the gpt-5 reasoning pattern
set, yet its request carries neither reasoning_effort nor
max_completion_tokens because the Responses API branch is selected first. -/
theorem c8_counterexample :
    isReasoningModel "gpt-5.1-codex" = true ∧
    (buildRequestParams "gpt-5.1-codex" none 4000 "medium").reasoning_effort = none ∧
    (buildRequestParams "gpt-5.1-codex" none 4000 "medium").max_completion_tokens =
      none := by
  decide

/-- C8 amended: no request ever carries both temperature and
reasoning_effort; among chat-protocol calls the reasoning dichotomy holds
exactly as claimed; but models routed to the Responses API (the
gpt-5.1-codex family, which also matches the gpt-5 pattern) are sent
neither field, only max_output_tokens. -/
theorem c8_request_params_spec (model : String) (temperature : Option ℚ)
    (max_tokens : Nat) (effort : String) :
    ((buildRequestParams model temperature max_tokens effort).temperature = none ∨
      (buildRequestParams model temperature max_tokens effort).reasoning_effort =
        none) ∧
    (useResponsesApi model = true →
      (buildRequestParams model temperature max_tokens effort).temperature = none ∧
      (buildRequestParams model temperature max_tokens effort).reasoning_effort =
        none ∧
      (buildRequestParams model temperature max_tokens effort).max_output_tokens =
        some max_tokens) ∧
    (useResponsesApi model = false → isReasoningModel model = true →
      (buildRequestParams model temperature max_tokens effort).reasoning_effort =
        some effort ∧
      (buildRequestParams model temperature max_tokens effort).max_completion_tokens =
        some max_tokens ∧
      (buildRequestParams model temperature max_tokens effort).temperature = none ∧
      (buildRequestParams model temperature max_tokens effort).max_tokens = none) ∧
    (useResponsesApi model = false → isReasoningModel model = false →
      (buildRequestParams model temperature max_tokens effort).max_tokens =
        some max_tokens ∧
      (buildRequestParams model temperature max_tokens effort).temperature =
        temperature ∧
      (buildRequestParams model temperature max_tokens effort).reasoning_effort =
        none) := by
  refine ⟨?_, fun h1 => ?_, fun h1 h2 => ?_, fun h1 h2 => ?_⟩
  · by_cases h1 : useResponsesApi model <;> by_cases h2 : isReasoningModel model <;>
      simp [buildRequestParams, h1, h2]
  · simp [buildRequestParams, h1]
  · simp [buildRequestParams, h1, h2]
  · simp [buildRequestParams, h1, h2]

/-- Witness for C8 amended: o3-mini (chat, reasoning) gets the effort enum
and no temperature; gpt-4o-mini (chat, non-reasoning) gets the temperature
and no effort. -/
theorem c8_witness :
    (buildRequestParams "o3-mini" (some 1) 4000 "medium").reasoning_effort =
      some "medium" ∧
    (buildRequestParams "o3-mini" (some 1) 4000 "medium").temperature = none ∧
    (buildRequestParams "gpt-4o-mini" (some 1) 4000 "medium").temperature = some 1 ∧
    (buildRequestParams "gpt-4o-mini" (some 1) 4000 "medium").reasoning_effort =
      none := by
  have h1 := (c8_request_params_spec "o3-mini" (some 1) 4000 "medium").2.2.1
    (by decide) (by decide)
  have h2 := (c8_request_params_spec "gpt-4o-mini" (some 1) 4000 "medium").2.2.2
    (by decide) (by decide)
  exact ⟨h1.1, h1.2.2.1, h2.2.1, h2.2.2⟩

theorem find_unique {nodes : List TaskNode}
    (h : (nodes.map (fun n => n.task_id)).Nodup) {p : TaskNode} (hp : p ∈ nodes) :
    nodes.find? (fun n => n.task_id == p.task_id) = some p := by
  induction nodes with
  | nil => cases hp
  | cons a t ih =>
    rw [List.map_cons, List.nodup_cons] at h
    rcases List.mem_cons.mp hp with rfl | hpt
    · exact List.find?_cons_of_pos t (by simp)
    · have hne : (a.task_id == p.task_id) = false := by
        rw [beq_eq_false_iff_ne]
        intro he
        exact h.1 (he ▸ List.mem_map_of_mem (fun n => n.task_id) hpt)
      rw [List.find?_cons_of_neg t (by simp [hne] : ¬ _)]
      exact ih h.2 hpt

theorem findNode_eq_some_iff (g : TaskGraph)
    (h : (g.nodes.map (fun n => n.task_id)).Nodup) (x : String) (p : TaskNode) :
    g.findNode x = some p ↔ p ∈ g.nodes ∧ p.task_id = x := by
  constructor
  · intro hf
    have hmem := List.mem_of_find?_eq_some hf
    have hbeq := List.find?_some hf
    exact ⟨hmem, by simpa using hbeq⟩
  · rintro ⟨hp, rfl⟩
    exact find_unique h hp

/-- C6: a node is in the ready set exactly when it is a PENDING node all of
whose predecessors (nodes with an edge into it) have status DONE; in
particular no node with a non-DONE predecessor is ever ready. -/
theorem c6_ready_set_spec (g : TaskGraph)
    (hnodup : (g.nodes.map (fun n => n.task_id)).Nodup) (t : TaskNode) :
    t ∈ g.get_ready_tasks ↔
      t ∈ g.nodes ∧ t.status = TStatus.pending ∧
        ∀ e ∈ g.edges, e.2 = t.task_id →
          ∃ p ∈ g.nodes, p.task_id = e.1 ∧ p.status = TStatus.done := by
  have hinner : ∀ e : String × String,
      (((g.findNode e.1).map (fun n => n.status) == some TStatus.done) = true) ↔
        ∃ p ∈ g.nodes, p.task_id = e.1 ∧ p.status = TStatus.done := by
    intro e
    rw [beq_iff_eq, Option.map_eq_some']
    constructor
    · rintro ⟨p, hp, hstat⟩
      obtain ⟨hmem, hid⟩ := (findNode_eq_some_iff g hnodup e.1 p).mp hp
      exact ⟨p, hmem, hid, hstat⟩
    · rintro ⟨p, hmem, hid, hstat⟩
      exact ⟨p, (findNode_eq_some_iff g hnodup e.1 p).mpr ⟨hmem, hid⟩, hstat⟩
  rw [TaskGraph.get_ready_tasks, List.mem_filter]
  constructor
  · rintro ⟨hmem, hpred⟩
    rw [Bool.and_eq_true, beq_iff_eq, List.all_eq_true] at hpred
    refine ⟨hmem, hpred.1, fun e he hid => ?_⟩
    exact (hinner e).mp (hpred.2 e (List.mem_filter.mpr ⟨he, by simp [hid]⟩))
  · rintro ⟨hmem, hstat, hpre⟩
    refine ⟨hmem, ?_⟩
    rw [Bool.and_eq_true, beq_iff_eq, List.all_eq_true]
    refine ⟨hstat, fun e he => ?_⟩
    have hf := List.mem_filter.mp he
    exact (hinner e).mpr (hpre e hf.1 (by simpa using hf.2))

/-- Witness for C6 on the spec scenario graph (A with no deps, B depending
on A, C depending on A and B, all PENDING): A is ready and C is not. -/
theorem c6_witness :
    ({ task_id := "A" } : TaskNode) ∈
      ({ nodes := [{ task_id := "A" }, { task_id := "B" }, { task_id := "C" }],
         edges := [("A", "B"), ("A", "C"), ("B", "C")] } : TaskGraph).get_ready_tasks ∧
    ({ task_id := "C" } : TaskNode) ∉
      ({ nodes := [{ task_id := "A" }, { task_id := "B" }, { task_id := "C" }],
         edges := [("A", "B"), ("A", "C"), ("B", "C")] } : TaskGraph).get_ready_tasks := by
  constructor
  · exact (c6_ready_set_spec
      { nodes := [{ task_id := "A" }, { task_id := "B" }, { task_id := "C" }],
        edges := [("A", "B"), ("A", "C"), ("B", "C")] }
      (by decide) { task_id := "A" }).mpr (by decide)
  · intro hmem
    exact absurd ((c6_ready_set_spec
      { nodes := [{ task_id := "A" }, { task_id := "B" }, { task_id := "C" }],
        edges := [("A", "B"), ("A", "C"), ("B", "C")] }
      (by decide) { task_id := "C" }).mp hmem) (by decide)

/-- C7 counterexample: the startup loader of the parallel pool stores the
entire stripped line as the credential token, so a labelled line keeps its
label inside the token instead of reducing to the last whitespace-separated
field. -/
theorem c7_counterexample :
    ((load_keys_from_file "team.alpha sk-proj-abc" {} "openai").keys.map
        (fun k => k.key)) = ["team.alpha sk-proj-abc"] ∧
    (pySplit "team.alpha sk-proj-abc").getLast? = some "sk-proj-abc" ∧
    ("team.alpha sk-proj-abc" : String) ≠ "sk-proj-abc" := by
  decide

/-- C7 amended: both startup loaders ignore blank lines and lines starting
with the comment marker; the keys.py loader stores the last
whitespace-separated field of a surviving line as the token and drops
surviving lines whose last field does not start with sk-; the api_pool
loader instead stores the entire stripped line as the token. -/
theorem c7_manifest_loading_spec (i : Nat) (line provider : String) (p : APIKeyPool) :
    (pyStrip line = "" ∨ pyStartsWith (pyStrip line) "#" = true →
      loadLine i line = none ∧ processKeyLine provider p line = p) ∧
    (∀ rec, loadLine i line = some rec →
      (pySplit (pyStrip line)).getLast? = some rec.key ∧
        pyStartsWith rec.key "sk-" = true) ∧
    (pyStrip line ≠ "" → pyStartsWith (pyStrip line) "#" = false →
      (processKeyLine provider p line).keys =
        p.keys ++ [{ key := pyStrip line, provider := provider }]) := by
  refine ⟨fun h => ⟨?_, ?_⟩, fun rec hrec => ?_, fun h1 h2 => ?_⟩
  · rcases h with h | h
    · simp [loadLine, h]
    · simp [loadLine, h]
  · rcases h with h | h
    · simp [processKeyLine, h]
    · simp [processKeyLine, h]
  · simp only [loadLine] at hrec
    split at hrec
    · exact Option.noConfusion hrec
    · split at hrec
      · exact Option.noConfusion hrec
      · next key heq =>
        split at hrec
        · exact Option.noConfusion hrec
        · next hsk =>
          injection hrec with hrec2
          rw [← hrec2]
          exact ⟨heq, by simpa using hsk⟩
  · simp [processKeyLine, APIKeyPool.add_key, h1, h2, pyStrip_idem]

/-- Witness for C7 amended: a blank line and a comment line are ignored by
both loaders; the keys.py loader reduces a labelled line to its sk- token;
the pool loader appends the whole stripped line. -/
theorem c7_witness :
    loadLine 1 "   " = none ∧
    processKeyLine "openai" {} "# comment" = ({} : APIKeyPool) ∧
    (pySplit (pyStrip "team sk-abc")).getLast? = some "sk-abc" ∧
    (processKeyLine "openai" {} "team sk-abc").keys =
      ({} : APIKeyPool).keys ++
        [{ key := pyStrip "team sk-abc", provider := "openai" }] := by
  refine ⟨?_, ?_, ?_, ?_⟩
  · exact ((c7_manifest_loading_spec 1 "   " "openai" {}).1 (Or.inl (by decide))).1
  · exact ((c7_manifest_loading_spec 2 "# comment" "openai" {}).1
      (Or.inr (by decide))).2
  · exact ((c7_manifest_loading_spec 3 "team sk-abc" "openai" {}).2.1
      { label := "team", key := "sk-abc" } (by decide)).1
  · exact (c7_manifest_loading_spec 4 "team sk-abc" "openai" {}).2.2 (by decide)
      (by decide)

theorem mem_declaredEdges (tasks : List OTask) (a b : String) :
    (a, b) ∈ declaredEdges tasks ↔
      ∃ t ∈ tasks, b = t.task_id ∧ a ∈ t.dependencies := by
  constructor
  · intro h
    rw [declaredEdges, List.mem_flatMap] at h
    obtain ⟨t, ht, hmem⟩ := h
    rw [List.mem_map] at hmem
    obtain ⟨d, hd, heq⟩ := hmem
    cases heq
    exact ⟨t, ht, rfl, hd⟩
  · rintro ⟨t, ht, rfl, hd⟩
    rw [declaredEdges, List.mem_flatMap]
    exact ⟨t, ht, List.mem_map.mpr ⟨a, hd, rfl⟩⟩

theorem cycle_mem_ids {tasks : List OTask} {k : ℕ} {f : ZMod k → String}
    (hcyc : ∀ i : ZMod k, (f i, f (i + 1)) ∈ declaredEdges tasks) (i : ZMod k) :
    f i ∈ taskIds tasks := by
  have h := hcyc (i - 1)
  rw [sub_add_cancel] at h
  obtain ⟨t, ht, hb, _⟩ := (mem_declaredEdges tasks (f (i - 1)) (f i)).mp h
  rw [taskIds, List.mem_map]
  exact ⟨t, ht, hb.symm⟩

theorem cycle_mem_builtEdges {tasks : List OTask} {k : ℕ} {f : ZMod k → String}
    (hcyc : ∀ i : ZMod k, (f i, f (i + 1)) ∈ declaredEdges tasks) (i : ZMod k) :
    (f i, f (i + 1)) ∈ builtEdges tasks := by
  obtain ⟨t, ht, hb, hd⟩ := (mem_declaredEdges tasks (f i) (f (i + 1))).mp (hcyc i)
  rw [builtEdges, List.mem_flatMap]
  refine ⟨t, ht, ?_⟩
  rw [List.mem_map]
  refine ⟨f i, ?_, by rw [hb]⟩
  rw [List.mem_filter]
  exact ⟨hd, List.elem_eq_true_of_mem (cycle_mem_ids hcyc i)⟩

theorem cycle_stays {edges : List (String × String)} {k : ℕ} {f : ZMod k → String}
    (hedge : ∀ i : ZMod k, (f i, f (i + 1)) ∈ edges) (R : List String)
    (hR : ∀ i : ZMod k, f i ∈ R) (i : ZMod k) : f i ∈ peel edges R := by
  rw [peel, List.mem_filter]
  refine ⟨hR i, ?_⟩
  rw [hasIncomingFrom, List.any_eq_true]
  refine ⟨(f (i - 1), f ((i - 1) + 1)), hedge (i - 1), ?_⟩
  rw [sub_add_cancel]
  simp only [beq_self_eq_true, Bool.true_and]
  exact List.elem_eq_true_of_mem (hR (i - 1))

theorem cycle_stays_iterate {edges : List (String × String)} {k : ℕ}
    {f : ZMod k → String} (hedge : ∀ i : ZMod k, (f i, f (i + 1)) ∈ edges) :
    ∀ m : ℕ, ∀ R : List String, (∀ i : ZMod k, f i ∈ R) →
      ∀ i : ZMod k, f i ∈ (peel edges)^[m] R := by
  intro m
  induction m with
  | zero => intro R hR i; simpa using hR i
  | succ m ih =>
    intro R hR i
    rw [Function.iterate_succ_apply]
    exact ih (peel edges R) (cycle_stays hedge R hR) i

/-- C9: a plan whose declared dependency edges contain a directed cycle is
rejected by the Orchestrator graph build with the circular-dependency
error, and execute_project then reports that failure without executing any
task, whatever the execution phase would have done. -/
theorem c9_cyclic_plan_rejected (tasks : List OTask) (k : ℕ) (f : ZMod k → String)
    (hcyc : ∀ i : ZMod k, (f i, f (i + 1)) ∈ declaredEdges tasks) :
    build_dependency_graph tasks =
      Except.error "Circular dependencies detected in task graph!" ∧
    ∀ runPhase2, execute_project tasks runPhase2 =
      { success := false,
        error := some "Circular dependencies detected in task graph!",
        tasks_executed := [] } := by
  have h0 : f 0 ∈ (peel (builtEdges tasks))^[(taskIds tasks).length] (taskIds tasks) :=
    cycle_stays_iterate (cycle_mem_builtEdges hcyc) _ _ (cycle_mem_ids hcyc) 0
  have hdag : is_directed_acyclic_graph (taskIds tasks) (builtEdges tasks) = false := by
    rw [is_directed_acyclic_graph]
    cases hx : (peel (builtEdges tasks))^[(taskIds tasks).length] (taskIds tasks) with
    | nil => rw [hx] at h0; cases h0
    | cons a t => rfl
  have hb : build_dependency_graph tasks =
      Except.error "Circular dependencies detected in task graph!" := by
    simp [build_dependency_graph, hdag]
  exact ⟨hb, fun run => by simp [execute_project, hb]⟩

/-- Witness for C9 on the spec scenario: the plan with dependency edges
A→B→C→A is rejected at graph build with the cycle error. -/
theorem c9_witness :
    build_dependency_graph
        [{ task_id := "A", dependencies := ["C"] },
         { task_id := "B", dependencies := ["A"] },
         { task_id := "C", dependencies := ["B"] }] =
      Except.error "Circular dependencies detected in task graph!" :=
  (c9_cyclic_plan_rejected
    [{ task_id := "A", dependencies := ["C"] },
     { task_id := "B", dependencies := ["A"] },
     { task_id := "C", dependencies := ["B"] }] 3
    (fun i => if i = 0 then "A" else if i = 1 then "B" else "C") (by decide)).1

/-- C10: every success-shaped result built on the Responses API (flattened
protocol) path carries the constant finish_reason stop, independent of the
wire response. -/
theorem c10_responses_finish_reason_stop (r : RResponse) :
    (parseResponsesResult r).finish_reason = "stop" := rfl

end Gateway
